import Mathlib

/-! KitSvc `module/sd`: the service-discovery registrar.

A shallow embedding of `src/module/sd/sd.go`.  The Go functions `Wait`,
`newClient`, `register`, `registerChecks` and `deregister` are sequential
programs over external collaborators (the readiness channel, the Consul client
library, logrus, the uuid generator, the OS).  They are embedded as programs of
a small effect monad `Proc`: a program transforms a `State` that records, in
order, every externally visible effect (`State.trace`), and ends in a `Result`:
a normal return, a process exit (`os.Exit`), or blocking forever on a channel.

The answers of the collaborators are not computed; they are read from a
`World`, over which every theorem quantifies.
-/

namespace KitSvc.sd

/-! ## Data model -/

/-- The `*cli.Context`: the values its accessors `c.String(name)`,
`c.Int(name)` and `c.StringSlice(name)` return for each option name. -/
structure Context where
  lookupString : String → String
  lookupInt : String → Int
  lookupStringSlice : String → List String

/-- A non-nil `*api.Client`. -/
structure Client where
  handle : Nat
deriving DecidableEq

/-- The fields of `api.AgentServiceRegistration` that `register` sets (the
others keep their zero value). -/
structure AgentServiceRegistration where
  ID : String
  Name : String
  Port : Int
  Tags : List String
deriving DecidableEq

/-- The fields of the embedded `api.AgentServiceCheck` that `registerChecks`
sets. -/
structure AgentServiceCheck where
  HTTP : String
  Interval : String
  Timeout : String
deriving DecidableEq

/-- The fields of `api.AgentCheckRegistration` that `registerChecks` sets; a
check without `Notes` has the zero value `""`. -/
structure AgentCheckRegistration where
  Name : String
  Notes : String
  ServiceID : String
  Check : AgentServiceCheck
deriving DecidableEq

/-- The logrus levels used by the package. -/
inductive Level where
  | info
  | error
  | fatal
deriving DecidableEq

/-- An `os.Signal` delivered to the channel given to `signal.Notify`; only
`os.Interrupt` is subscribed. -/
inductive Signal where
  | interrupt
deriving DecidableEq

/-- An externally visible effect. -/
inductive Event where
  /-- `<-deployed` completed with this value -/
  | recv (v : Bool)
  /-- a logrus entry -/
  | log (lvl : Level) (msg : String)
  /-- `api.NewClient(api.DefaultConfig())` -/
  | newClient
  /-- `client.Agent().ServiceRegister(info)` -/
  | serviceRegister (info : AgentServiceRegistration)
  /-- `client.Agent().CheckRegister(v)` -/
  | checkRegister (v : AgentCheckRegistration)
  /-- `signal.Notify(ch, os.Interrupt)` -/
  | signalNotify
  /-- `go func() { ... }()`: the handler goroutine, closed over `client`, `id` -/
  | goHandler (client : Client) (id : String)
  /-- `client.Agent().ServiceDeregister(id)` -/
  | serviceDeregister (id : String)
deriving DecidableEq

/-- The `deployed <-chan bool`: the values that are (ever going to be) sent on
it, in order, and whether the sender closes it after them. -/
structure Chan where
  buf : List Bool
  closed : Bool
deriving DecidableEq

/-- The state of the process as far as the package can observe or change it. -/
structure State where
  /-- the effects so far, oldest first -/
  trace : List Event
  /-- the readiness channel -/
  deployed : Chan
  /-- how many `CheckRegister` calls were made so far -/
  checkCalls : Nat
  /-- the handler goroutines started so far, with the variables they capture -/
  handlers : List (Client × String)
deriving DecidableEq

/-- The state in which `Wait` is called. -/
def State.init (deployed : Chan) : State :=
  { trace := [], deployed := deployed, checkCalls := 0, handlers := [] }

/-- The answers of the external collaborators. -/
structure World where
  /-- `api.NewClient(api.DefaultConfig())`: a client, or an error -/
  apiNewClient : Except String Client
  /-- `uuid.NewV4().String()` -/
  uuidNewV4 : String
  /-- the error (if any) returned by `ServiceRegister` for a registration -/
  serviceRegister : AgentServiceRegistration → Option String
  /-- the error (if any) returned by the `n`-th `CheckRegister` call -/
  checkRegister : Nat → AgentCheckRegistration → Option String
  /-- the error (if any) returned by `ServiceDeregister` for an id -/
  serviceDeregister : String → Option String

/-! ## The effect monad -/

/-- How a program ends. -/
inductive Result (α : Type) where
  /-- it returns -/
  | ok (a : α)
  /-- the process exits with this status -/
  | exit (code : Int)
  /-- it blocks forever -/
  | block
deriving DecidableEq

/-- A sequential program. -/
def Proc (α : Type) : Type := State → Result α × State

/-- Sequencing: what follows a program runs only if it returns. -/
def Proc.bind {α β : Type} (m : Proc α) (f : α → Proc β) : Proc β := fun s =>
  match m s with
  | (Result.ok a, s1) => f a s1
  | (Result.exit code, s1) => (Result.exit code, s1)
  | (Result.block, s1) => (Result.block, s1)

/-- Returning a value has no effect. -/
def Proc.pure {α : Type} (a : α) : Proc α := fun s => (Result.ok a, s)

instance : Monad Proc where
  pure := Proc.pure
  bind := Proc.bind

/-- Record one effect. -/
def emit (e : Event) : Proc Unit := fun s =>
  (Result.ok (), { s with trace := s.trace ++ [e] })

/-- `os.Exit(code)`. -/
def osExit {α : Type} (code : Int) : Proc α := fun s => (Result.exit code, s)

/-- Waiting on a channel on which nothing more arrives. -/
def blockForever {α : Type} : Proc α := fun s => (Result.block, s)

/-- `<-deployed`: takes the next value sent; on a closed, drained channel it
yields the zero value `false`; otherwise it blocks. -/
def recvDeployed : Proc Bool := fun s =>
  match s.deployed.buf with
  | v :: rest =>
    (Result.ok v, { s with trace := s.trace ++ [Event.recv v],
                           deployed := { s.deployed with buf := rest } })
  | [] =>
    if s.deployed.closed then
      (Result.ok false, { s with trace := s.trace ++ [Event.recv false] })
    else
      (Result.block, s)

/-- `logrus.Infoln(msg)`. -/
def Infoln (msg : String) : Proc Unit := emit (Event.log Level.info msg)

/-- `logrus.Errorln(err)`. -/
def Errorln (msg : String) : Proc Unit := emit (Event.log Level.error msg)

/-- `logrus.Fatalln(msg)`: logs at fatal level, then calls `os.Exit(1)`; it
never returns. -/
def Fatalln {α : Type} (msg : String) : Proc α := do
  emit (Event.log Level.fatal msg)
  osExit 1

/-- `api.NewClient(api.DefaultConfig())`. -/
def apiNewClient (w : World) : Proc (Except String Client) := fun s =>
  (Result.ok w.apiNewClient, { s with trace := s.trace ++ [Event.newClient] })

/-- `client.Agent().ServiceRegister(info)`; returns the error, if any. -/
def ServiceRegister (w : World) (_client : Client) (info : AgentServiceRegistration) :
    Proc (Option String) := fun s =>
  (Result.ok (w.serviceRegister info),
   { s with trace := s.trace ++ [Event.serviceRegister info] })

/-- `client.Agent().CheckRegister(v)`; returns the error, if any. -/
def CheckRegister (w : World) (_client : Client) (v : AgentCheckRegistration) :
    Proc (Option String) := fun s =>
  (Result.ok (w.checkRegister s.checkCalls v),
   { s with trace := s.trace ++ [Event.checkRegister v], checkCalls := s.checkCalls + 1 })

/-- `client.Agent().ServiceDeregister(id)`; returns the error, if any. -/
def ServiceDeregister (w : World) (_client : Client) (id : String) :
    Proc (Option String) := fun s =>
  (Result.ok (w.serviceDeregister id),
   { s with trace := s.trace ++ [Event.serviceDeregister id] })

/-- `go func() { ... }()`: start the handler goroutine of `deregister`. -/
def goHandler (client : Client) (id : String) : Proc Unit := fun s =>
  (Result.ok (), { s with trace := s.trace ++ [Event.goHandler client id],
                          handlers := s.handlers ++ [(client, id)] })

/-- `for _, v := range xs { body }`. -/
def forRange {α : Type} (xs : List α) (body : α → Proc Unit) : Proc Unit :=
  match xs with
  | [] => pure ()
  | x :: rest => do
    body x
    forRange rest body

/-! ## The package -/

/-- `newClient` (sd.go 27-35). -/
def newClient (w : World) (_c : Context) : Proc Client := do
  let r ← apiNewClient w
  match r with
  | Except.error err => do
    Errorln err
    Fatalln "Error occurred while creating the Consul api client."
  | Except.ok apiClient =>
    return apiClient

/-- The slice `checks` built by `registerChecks` (sd.go 69-109). -/
def checks (c : Context) (id : String) : List AgentCheckRegistration :=
  [ { Name := "Service Router",
      Notes := "",
      ServiceID := id,
      Check := { HTTP := c.lookupString "url" ++ "/sd/health",
                 Interval := c.lookupString "consul-check_interval",
                 Timeout := c.lookupString "consul-check_timeout" } },
    { Name := "Disk Usage",
      Notes := "Critical 5%, warning 10% free",
      ServiceID := id,
      Check := { HTTP := c.lookupString "url" ++ "/sd/disk",
                 Interval := c.lookupString "consul-check_interval",
                 Timeout := c.lookupString "consul-check_timeout" } },
    { Name := "Load Average",
      Notes := "Critical load average 2, warning load average 1",
      ServiceID := id,
      Check := { HTTP := c.lookupString "url" ++ "/sd/cpu",
                 Interval := c.lookupString "consul-check_interval",
                 Timeout := c.lookupString "consul-check_timeout" } },
    { Name := "RAM Usage",
      Notes := "Critical 5%, warning 10% free",
      ServiceID := id,
      Check := { HTTP := c.lookupString "url" ++ "/sd/ram",
                 Interval := c.lookupString "consul-check_interval",
                 Timeout := c.lookupString "consul-check_timeout" } } ]

/-- `registerChecks` (sd.go 68-114): the result of each `CheckRegister` call is
dropped. -/
def registerChecks (w : World) (c : Context) (client : Client) (id : String) : Proc Unit :=
  forRange (checks c id) (fun v => do
    let _ ← CheckRegister w client v
    pure ())

/-- The body of the loop `for range ch` of the handler goroutine
(sd.go 125-131). -/
def handlerBody (w : World) (client : Client) (id : String) : Proc Unit := do
  let err ← ServiceDeregister w client id
  match err with
  | some e => do
    Errorln e
    Fatalln "Cannot deregister the service from the service registry."
  | none =>
    Infoln "The service has been deregistered from the service registry successfully."
  osExit 1

/-- The handler goroutine of `deregister` (sd.go 123-133), run on the signals
delivered to `ch`; `ch` is never closed, so a loop that used up the signals
blocks. -/
def handler (w : World) (client : Client) (id : String) (signals : List Signal) :
    Proc Unit := do
  forRange signals (fun _ => handlerBody w client id)
  blockForever

/-- `deregister` (sd.go 118-134): subscribes to the interrupt signal and starts
the handler goroutine. -/
def deregister (_w : World) (client : Client) (id : String) : Proc Unit := do
  emit Event.signalNotify
  goHandler client id

/-- The `info` built by `register` (sd.go 44-49). -/
def serviceInfo (c : Context) (id : String) : AgentServiceRegistration :=
  { ID := id,
    Name := c.lookupString "name",
    Port := c.lookupInt "port",
    Tags := c.lookupStringSlice "consul-tags" }

/-- `register` (sd.go 38-65). -/
def register (w : World) (c : Context) (client : Client) : Proc Unit := do
  let id := w.uuidNewV4
  let info := serviceInfo c id
  let err ← ServiceRegister w client info
  match err with
  | some e => do
    Errorln e
    Fatalln "Error occurred while registering to the service registry (Is consul running?)."
  | none => pure ()
  Infoln ("The service id is `" ++ id ++ "`.")
  registerChecks w c client id
  deregister w client id

/-- `Wait` (sd.go 14-24). -/
def Wait (w : World) (c : Context) : Proc Unit := do
  let _ ← recvDeployed
  Infoln "The events were all replayed, trying to register to the server registry."
  let client ← newClient w c
  register w c client
  Infoln "The service has been registered to the server registry successfully, the service is now ready to work."

/-! ## Observations on traces -/

/-- Is the event the completion of `<-deployed`? -/
def Event.isRecv : Event → Bool
  | Event.recv _ => true
  | _ => false

/-- Is the event a log entry? -/
def Event.isLog : Event → Bool
  | Event.log _ _ => true
  | _ => false

/-- Is the event a `ServiceRegister` call? -/
def Event.isServiceRegister : Event → Bool
  | Event.serviceRegister _ => true
  | _ => false

/-- Is the event a `CheckRegister` call? -/
def Event.isCheckRegister : Event → Bool
  | Event.checkRegister _ => true
  | _ => false

/-- Is the event a `ServiceDeregister` call? -/
def Event.isServiceDeregister : Event → Bool
  | Event.serviceDeregister _ => true
  | _ => false

/-- Is the event part of installing the interrupt hook? -/
def Event.isHook : Event → Bool
  | Event.signalNotify => true
  | Event.goHandler _ _ => true
  | _ => false

/-- Is the event a call to the registry (client creation included)? -/
def Event.isRegistryCall : Event → Bool
  | Event.newClient => true
  | Event.serviceRegister _ => true
  | Event.checkRegister _ => true
  | Event.serviceDeregister _ => true
  | _ => false

/-- An example configuration: the scenario of the specification. -/
def exampleContext : Context :=
  { lookupString := fun n =>
      if n = "name" then "svc"
      else if n = "url" then "http://localhost"
      else if n = "consul-check_interval" then "10s"
      else if n = "consul-check_timeout" then "5s"
      else "",
    lookupInt := fun n => if n = "port" then 8080 else 0,
    lookupStringSlice := fun n => if n = "consul-tags" then ["v1"] else [] }

/-- An example world in which every call succeeds. -/
def exampleWorld : World :=
  { apiNewClient := Except.ok { handle := 0 },
    uuidNewV4 := "6ba7b810-9dad-41d1-80b4-00c04fd430c8",
    serviceRegister := fun _ => none,
    checkRegister := fun _ _ => none,
    serviceDeregister := fun _ => none }

/-- An example readiness channel: one value sent, not closed. -/
def exampleChan : Chan := { buf := [true], closed := false }

/-- What `<-deployed` yields on a channel, and the channel afterwards; `none`
when it blocks. -/
def Chan.recv (ch : Chan) : Option (Bool × Chan) :=
  match ch.buf with
  | v :: rest => some (v, { ch with buf := rest })
  | [] => if ch.closed then some (false, ch) else none

/-- The log entries of `Wait` and `register`. -/
def msgReplayed : String :=
  "The events were all replayed, trying to register to the server registry."

def msgClientError : String := "Error occurred while creating the Consul api client."

def msgRegisterError : String :=
  "Error occurred while registering to the service registry (Is consul running?)."

def msgServiceId (id : String) : String := "The service id is `" ++ id ++ "`."

def msgRegistered : String :=
  "The service has been registered to the server registry successfully, the service is now ready to work."

def msgDeregisterError : String := "Cannot deregister the service from the service registry."

def msgDeregistered : String :=
  "The service has been deregistered from the service registry successfully."

/-- The effects a program adds when run from a state. -/
def Proc.effects {α : Type} (m : Proc α) (s : State) : List Event :=
  (m s).2.trace.drop s.trace.length

/-- The HTTP probe URLs of the `CheckRegister` calls of a trace, in order. -/
def probeURLs (tr : List Event) : List String :=
  tr.filterMap (fun e =>
    match e with
    | Event.checkRegister v => some v.Check.HTTP
    | _ => none)

/-! ## The process and the interrupt signal -/

/-- Is the event the subscription `signal.Notify(ch, os.Interrupt)`? -/
def Event.isSignalNotify : Event → Bool
  | Event.signalNotify => true
  | _ => false

/-- The first handler goroutine started in a trace: the number of effects of the
trace up to and including its start, and the variables it captures. -/
def firstHandler : List Event → Option (Nat × Client × String)
  | [] => none
  | Event.goHandler client id :: _ => some (1, client, id)
  | _ :: rest => (firstHandler rest).map (fun r => (r.1 + 1, r.2))

/-- How the process stands once an interrupt has been dealt with. -/
inductive Ending where
  /-- the process called `os.Exit` with this status -/
  | exit (code : Int)
  /-- the Go runtime ended the process: the default action of a signal nobody
  subscribed to -/
  | killed (sig : Signal)
  /-- the process goes on -/
  | alive
deriving DecidableEq

/-- The ending that a result of the main goroutine or of the handler means for
the process. -/
def Ending.ofResult : Result Unit → Ending
  | Result.ok _ => Ending.alive
  | Result.exit code => Ending.exit code
  | Result.block => Ending.alive

/-- The process that runs `Wait` from `State.init ch` and receives an interrupt
signal (and then the signals `later`) from the operating system at the moment
the main goroutine has performed `k` effects of its run.

* A process that had already exited is not affected.
* Without a subscription (`signal.Notify` is not among the `k` effects) the Go
  runtime ends the process on the spot: the default action of `os.Interrupt`.
* With the subscription in place the signal is queued on `ch` (capacity 1),
  where the handler goroutine picks it up once it is started; the main
  goroutine performs `j` more effects (and at least those up to the start of
  the handler) before the handler runs.

The result is the ending of the process and the effects up to it. -/
def interruptAt (w : World) (c : Context) (ch : Chan) (k j : Nat) (later : List Signal) :
    Ending × List Event :=
  let full := Wait w c (State.init ch)
  let tr := full.2.trace
  match full.1, decide (tr.length ≤ k) with
  | Result.exit code, true => (Ending.exit code, tr)
  | _, _ =>
    if (tr.take k).any Event.isSignalNotify then
      match firstHandler tr with
      | some (n, client, id) =>
        let r := handler w client id (Signal.interrupt :: later)
          { full.2 with trace := tr.take (max (k + j) n) }
        (Ending.ofResult r.1, r.2.trace)
      | none => (Ending.ofResult full.1, tr)
    else
      (Ending.killed Signal.interrupt, tr.take k)

/-! ## Running the programs -/

theorem recvDeployed_init_none (ch : Chan) (h : ch.recv = none) :
    recvDeployed (State.init ch) = (Result.block, State.init ch) := by
  rcases ch with ⟨buf, closed⟩
  cases buf with
  | nil => cases closed <;> simp_all [Chan.recv, recvDeployed, State.init]
  | cons v rest => simp [Chan.recv] at h

theorem recvDeployed_init_some (ch ch1 : Chan) (v : Bool) (h : ch.recv = some (v, ch1)) :
    recvDeployed (State.init ch) =
      (Result.ok v, { trace := [Event.recv v], deployed := ch1, checkCalls := 0,
                      handlers := [] }) := by
  rcases ch with ⟨buf, closed⟩
  cases buf with
  | nil =>
    cases closed
    · simp [Chan.recv] at h
    · simp only [Chan.recv, if_true, Option.some.injEq, Prod.mk.injEq] at h
      obtain ⟨rfl, rfl⟩ := h
      simp [recvDeployed, State.init]
  | cons x rest =>
    simp only [Chan.recv, Option.some.injEq, Prod.mk.injEq] at h
    obtain ⟨rfl, rfl⟩ := h
    simp [recvDeployed, State.init]

/-- `registerChecks` issues the four calls, in the order of `checks`, and
returns, whatever the calls answer. -/
theorem registerChecks_run (w : World) (c : Context) (client : Client) (id : String)
    (s : State) :
    registerChecks w c client id s =
      (Result.ok (), { s with trace := s.trace ++ (checks c id).map Event.checkRegister,
                              checkCalls := s.checkCalls + 4 }) := by
  simp [registerChecks, checks, forRange, CheckRegister, bind, Proc.bind, pure, Proc.pure]

/-- `register` when `ServiceRegister` answers an error. -/
theorem register_run_error (w : World) (c : Context) (client : Client) (s : State)
    (e : String) (h : w.serviceRegister (serviceInfo c w.uuidNewV4) = some e) :
    register w c client s =
      (Result.exit 1,
       { s with trace := s.trace ++
          [Event.serviceRegister (serviceInfo c w.uuidNewV4),
           Event.log Level.error e,
           Event.log Level.fatal msgRegisterError] }) := by
  simp [register, ServiceRegister, Errorln, Fatalln, emit, osExit, bind, Proc.bind, h,
    msgRegisterError]

/-- `register` when `ServiceRegister` succeeds. -/
theorem register_run_ok (w : World) (c : Context) (client : Client) (s : State)
    (h : w.serviceRegister (serviceInfo c w.uuidNewV4) = none) :
    register w c client s =
      (Result.ok (),
       { trace := s.trace ++
          ([Event.serviceRegister (serviceInfo c w.uuidNewV4),
            Event.log Level.info (msgServiceId w.uuidNewV4)] ++
           (checks c w.uuidNewV4).map Event.checkRegister ++
           [Event.signalNotify, Event.goHandler client w.uuidNewV4]),
         deployed := s.deployed,
         checkCalls := s.checkCalls + 4,
         handlers := s.handlers ++ [(client, w.uuidNewV4)] }) := by
  simp [register, ServiceRegister, Infoln, emit, bind, Proc.bind, pure, Proc.pure, h,
    registerChecks_run, deregister, goHandler, msgServiceId]

/-- `newClient` when `api.NewClient` answers an error. -/
theorem newClient_run_error (w : World) (c : Context) (s : State) (e : String)
    (h : w.apiNewClient = Except.error e) :
    newClient w c s =
      (Result.exit 1,
       { s with trace := s.trace ++
          [Event.newClient, Event.log Level.error e,
           Event.log Level.fatal msgClientError] }) := by
  simp [newClient, apiNewClient, Errorln, Fatalln, emit, osExit, bind, Proc.bind, h,
    msgClientError]

/-- `newClient` when `api.NewClient` succeeds. -/
theorem newClient_run_ok (w : World) (c : Context) (s : State) (client : Client)
    (h : w.apiNewClient = Except.ok client) :
    newClient w c s =
      (Result.ok client, { s with trace := s.trace ++ [Event.newClient] }) := by
  simp [newClient, apiNewClient, bind, Proc.bind, pure, Proc.pure, h]

/-- `Wait` when the readiness channel never delivers. -/
theorem Wait_run_block (w : World) (c : Context) (ch : Chan) (h : ch.recv = none) :
    Wait w c (State.init ch) = (Result.block, State.init ch) := by
  simp [Wait, bind, Proc.bind, recvDeployed_init_none ch h]

/-- `Wait` when client creation fails. -/
theorem Wait_run_clientError (w : World) (c : Context) (ch ch1 : Chan) (v : Bool)
    (e : String) (hr : ch.recv = some (v, ch1)) (h : w.apiNewClient = Except.error e) :
    Wait w c (State.init ch) =
      (Result.exit 1,
       { trace := [Event.recv v, Event.log Level.info msgReplayed, Event.newClient,
                   Event.log Level.error e, Event.log Level.fatal msgClientError],
         deployed := ch1, checkCalls := 0, handlers := [] }) := by
  simp [Wait, bind, Proc.bind, recvDeployed_init_some ch ch1 v hr, Infoln, emit,
    newClient_run_error w c _ e h, msgReplayed]

/-- `Wait` when service registration fails. -/
theorem Wait_run_registerError (w : World) (c : Context) (ch ch1 : Chan) (v : Bool)
    (client : Client) (e : String) (hr : ch.recv = some (v, ch1))
    (hc : w.apiNewClient = Except.ok client)
    (h : w.serviceRegister (serviceInfo c w.uuidNewV4) = some e) :
    Wait w c (State.init ch) =
      (Result.exit 1,
       { trace := [Event.recv v, Event.log Level.info msgReplayed, Event.newClient,
                   Event.serviceRegister (serviceInfo c w.uuidNewV4),
                   Event.log Level.error e, Event.log Level.fatal msgRegisterError],
         deployed := ch1, checkCalls := 0, handlers := [] }) := by
  simp [Wait, bind, Proc.bind, recvDeployed_init_some ch ch1 v hr, Infoln, emit,
    newClient_run_ok w c _ client hc, register_run_error w c client _ e h, msgReplayed]

/-- `Wait` when client creation and service registration succeed. -/
theorem Wait_run_ok (w : World) (c : Context) (ch ch1 : Chan) (v : Bool)
    (client : Client) (hr : ch.recv = some (v, ch1))
    (hc : w.apiNewClient = Except.ok client)
    (h : w.serviceRegister (serviceInfo c w.uuidNewV4) = none) :
    Wait w c (State.init ch) =
      (Result.ok (),
       { trace := [Event.recv v, Event.log Level.info msgReplayed, Event.newClient,
                   Event.serviceRegister (serviceInfo c w.uuidNewV4),
                   Event.log Level.info (msgServiceId w.uuidNewV4)] ++
                  (checks c w.uuidNewV4).map Event.checkRegister ++
                  [Event.signalNotify, Event.goHandler client w.uuidNewV4,
                   Event.log Level.info msgRegistered],
         deployed := ch1, checkCalls := 4, handlers := [(client, w.uuidNewV4)] }) := by
  simp [Wait, bind, Proc.bind, recvDeployed_init_some ch ch1 v hr, Infoln, emit,
    newClient_run_ok w c _ client hc, register_run_ok w c client _ h, msgReplayed,
    msgRegistered]

theorem effects_of_trace {α : Type} (m : Proc α) (s : State) (tr : List Event)
    (h : (m s).2.trace = s.trace ++ tr) : Proc.effects m s = tr := by
  simp [Proc.effects, h]

theorem registerChecks_effects (w : World) (c : Context) (client : Client) (id : String)
    (s : State) :
    Proc.effects (registerChecks w c client id) s = (checks c id).map Event.checkRegister := by
  apply effects_of_trace
  rw [registerChecks_run]

/-- The handler goroutine on a first signal, when `ServiceDeregister` answers
an error. -/
theorem handler_run_error (w : World) (client : Client) (id : String) (sig : Signal)
    (rest : List Signal) (s : State) (e : String) (h : w.serviceDeregister id = some e) :
    handler w client id (sig :: rest) s =
      (Result.exit 1,
       { s with trace := s.trace ++
          [Event.serviceDeregister id, Event.log Level.error e,
           Event.log Level.fatal msgDeregisterError] }) := by
  simp [handler, forRange, handlerBody, ServiceDeregister, Errorln, Fatalln, emit, osExit,
    bind, Proc.bind, h, msgDeregisterError]

/-- The handler goroutine on a first signal, when `ServiceDeregister`
succeeds. -/
theorem handler_run_ok (w : World) (client : Client) (id : String) (sig : Signal)
    (rest : List Signal) (s : State) (h : w.serviceDeregister id = none) :
    handler w client id (sig :: rest) s =
      (Result.exit 1,
       { s with trace := s.trace ++
          [Event.serviceDeregister id, Event.log Level.info msgDeregistered] }) := by
  simp [handler, forRange, handlerBody, ServiceDeregister, Infoln, emit, osExit,
    bind, Proc.bind, h, msgDeregistered]

/-- The events of the four `CheckRegister` calls are among the `checks`. -/
theorem mem_checks_of_mem_map (c : Context) (id : String) (x : AgentCheckRegistration)
    (pre post : List Event)
    (hx : Event.checkRegister x ∈ pre ++ (checks c id).map Event.checkRegister ++ post)
    (hpre : ∀ e ∈ pre, e.isCheckRegister = false)
    (hpost : ∀ e ∈ post, e.isCheckRegister = false) :
    x ∈ checks c id := by
  rcases List.mem_append.1 hx with h1 | h1
  · rcases List.mem_append.1 h1 with h2 | h2
    · have := hpre _ h2
      simp [Event.isCheckRegister] at this
    · rcases List.mem_map.1 h2 with ⟨y, hy, hyx⟩
      cases hyx
      exact hy
  · have := hpost _ h1
    simp [Event.isCheckRegister] at this

/-- Every one of the `checks` carries the identity, the configured interval and
the configured timeout. -/
theorem checks_fields (c : Context) (id : String) (x : AgentCheckRegistration)
    (hx : x ∈ checks c id) :
    x.ServiceID = id ∧ x.Check.Interval = c.lookupString "consul-check_interval" ∧
      x.Check.Timeout = c.lookupString "consul-check_timeout" := by
  simp only [checks, List.mem_cons, List.mem_singleton, List.not_mem_nil, or_false] at hx
  rcases hx with rfl | rfl | rfl | rfl <;> exact ⟨rfl, rfl, rfl⟩

/-- `deregister` subscribes to the signal and starts the handler goroutine. -/
theorem deregister_run (w : World) (client : Client) (id : String) (s : State) :
    deregister w client id s =
      (Result.ok (),
       { s with trace := s.trace ++ [Event.signalNotify, Event.goHandler client id],
                handlers := s.handlers ++ [(client, id)] }) := by
  simp [deregister, emit, goHandler, bind, Proc.bind]

/-- Once `<-deployed` completes, the trace of `Wait` starts with the receive,
holds no other receive, and the channel is left as the receive left it. -/
theorem Wait_trace_after_recv (w : World) (c : Context) (ch ch1 : Chan) (v : Bool)
    (hr : ch.recv = some (v, ch1)) :
    ∃ tl : List Event, (Wait w c (State.init ch)).2.trace = Event.recv v :: tl ∧
      tl.filter Event.isRecv = [] ∧ (Wait w c (State.init ch)).2.deployed = ch1 := by
  rcases hc : w.apiNewClient with e | client
  · rw [Wait_run_clientError w c ch ch1 v e hr hc]
    exact ⟨_, rfl, rfl, rfl⟩
  · rcases h : w.serviceRegister (serviceInfo c w.uuidNewV4) with _ | e
    · rw [Wait_run_ok w c ch ch1 v client hr hc h]
      exact ⟨_, rfl, rfl, rfl⟩
    · rw [Wait_run_registerError w c ch ch1 v client e hr hc h]
      exact ⟨_, rfl, rfl, rfl⟩

/-! ## The claims -/

/-- C1: for every configuration, `registerChecks` returns after adding exactly
four effects, all of them `CheckRegister` calls, and their HTTP probe URLs are,
in this order, the configured `url` followed by `/sd/health`, `/sd/disk`,
`/sd/cpu` and `/sd/ram`; for the url `http://localhost` the first one is
`http://localhost/sd/health`. -/
theorem registerChecks_probe_urls (w : World) (c : Context) (client : Client) (id : String)
    (s : State) :
    (registerChecks w c client id s).1 = Result.ok () ∧
    (Proc.effects (registerChecks w c client id) s).length = 4 ∧
    (∀ e ∈ Proc.effects (registerChecks w c client id) s, e.isCheckRegister = true) ∧
    probeURLs (Proc.effects (registerChecks w c client id) s) =
      [c.lookupString "url" ++ "/sd/health", c.lookupString "url" ++ "/sd/disk",
       c.lookupString "url" ++ "/sd/cpu", c.lookupString "url" ++ "/sd/ram"] ∧
    (probeURLs (Proc.effects (registerChecks w exampleContext client id) s)).head? =
      some "http://localhost/sd/health" := by
  rw [registerChecks_effects, registerChecks_effects, registerChecks_run]
  refine ⟨rfl, rfl, ?_, rfl, ?_⟩
  · intro e he
    simp only [checks, List.map_cons, List.map_nil, List.mem_cons, List.mem_singleton,
      List.not_mem_nil, or_false] at he
    rcases he with rfl | rfl | rfl | rfl <;> rfl
  · simp only [checks, List.map_cons, probeURLs, List.filterMap_cons, List.head?_cons,
      Option.some.injEq]
    decide

/-- C2: in every run of `Wait` in which the readiness value arrives, client
creation succeeds and service registration succeeds, `Wait` returns and its
effects are, in this order: the receive, a log entry, the client creation, one
`ServiceRegister` call, a log entry, the four `CheckRegister` calls, the
installation of the interrupt hook (`signal.Notify`, then the handler
goroutine), a log entry.  In particular every `CheckRegister` call comes after
a `ServiceRegister` call for the identity the check belongs to. -/
theorem Wait_effects_in_order (w : World) (c : Context) (ch ch1 : Chan) (v : Bool)
    (client : Client) (hr : ch.recv = some (v, ch1))
    (hc : w.apiNewClient = Except.ok client)
    (h : w.serviceRegister (serviceInfo c w.uuidNewV4) = none) :
    (Wait w c (State.init ch)).1 = Result.ok () ∧
    (Wait w c (State.init ch)).2.trace =
      [Event.recv v, Event.log Level.info msgReplayed, Event.newClient,
       Event.serviceRegister (serviceInfo c w.uuidNewV4),
       Event.log Level.info (msgServiceId w.uuidNewV4)] ++
      (checks c w.uuidNewV4).map Event.checkRegister ++
      [Event.signalNotify, Event.goHandler client w.uuidNewV4,
       Event.log Level.info msgRegistered] ∧
    (Wait w c (State.init ch)).2.trace.filter
        (fun e => e.isRegistryCall || e.isHook) =
      [Event.newClient, Event.serviceRegister (serviceInfo c w.uuidNewV4)] ++
      (checks c w.uuidNewV4).map Event.checkRegister ++
      [Event.signalNotify, Event.goHandler client w.uuidNewV4] ∧
    (∀ (i : Nat) (x : AgentCheckRegistration),
      (Wait w c (State.init ch)).2.trace[i]? = some (Event.checkRegister x) →
      ∃ (j : Nat) (info : AgentServiceRegistration), j < i ∧
        (Wait w c (State.init ch)).2.trace[j]? = some (Event.serviceRegister info) ∧
        info.ID = x.ServiceID) := by
  rw [Wait_run_ok w c ch ch1 v client hr hc h]
  refine ⟨rfl, rfl, rfl, ?_⟩
  intro i x hi
  simp only [checks, List.map_cons, List.map_nil, List.cons_append, List.nil_append] at hi
  rcases i with _ | _ | _ | _ | _ | _ | _ | _ | _ | _ | _ | _ | i <;>
    simp only [List.getElem?_cons_zero, List.getElem?_cons_succ, List.getElem?_nil,
      Option.some.injEq, Event.checkRegister.injEq, reduceCtorEq] at hi <;>
    subst hi <;>
    exact ⟨3, serviceInfo c w.uuidNewV4, by omega, rfl, rfl⟩

/-- C2, at the example configuration. -/
theorem Wait_effects_in_order_witness :
    exampleChan.recv = some (true, { buf := [], closed := false }) ∧
    exampleWorld.apiNewClient = Except.ok { handle := 0 } ∧
    exampleWorld.serviceRegister (serviceInfo exampleContext exampleWorld.uuidNewV4) = none ∧
    (Wait exampleWorld exampleContext (State.init exampleChan)).1 = Result.ok () ∧
    (Wait exampleWorld exampleContext (State.init exampleChan)).2.trace.filter
        (fun e => e.isRegistryCall || e.isHook) =
      [Event.newClient,
       Event.serviceRegister (serviceInfo exampleContext exampleWorld.uuidNewV4)] ++
      (checks exampleContext exampleWorld.uuidNewV4).map Event.checkRegister ++
      [Event.signalNotify, Event.goHandler { handle := 0 } exampleWorld.uuidNewV4] :=
  have t := Wait_effects_in_order exampleWorld exampleContext exampleChan
    { buf := [], closed := false } true { handle := 0 } rfl rfl rfl
  ⟨rfl, rfl, rfl, t.1, t.2.2.1⟩

/-- An example world in which client creation fails. -/
def noClientWorld : World :=
  { exampleWorld with apiNewClient := Except.error "dial tcp 127.0.0.1:8500: refused" }

/-- An example world in which service registration fails. -/
def noRegisterWorld : World :=
  { exampleWorld with serviceRegister := fun _ => some "Unexpected response code: 500" }

/-- C3: if `api.NewClient` answers an error, then `newClient`, from any state,
logs and ends in a process exit (it returns no client), and `Wait` on any
readiness channel issues no `ServiceRegister` call, no `CheckRegister` call,
installs no interrupt hook and does not return; once the readiness value has
arrived it ends in a process exit. -/
theorem newClient_error_is_fatal (w : World) (c : Context) (e : String)
    (h : w.apiNewClient = Except.error e) :
    (∀ s : State, (newClient w c s).1 = Result.exit 1 ∧
      Proc.effects (newClient w c) s =
        [Event.newClient, Event.log Level.error e, Event.log Level.fatal msgClientError] ∧
      ∀ client : Client, (newClient w c s).1 ≠ Result.ok client) ∧
    (∀ ch : Chan,
      (Wait w c (State.init ch)).1 ≠ Result.ok () ∧
      (Wait w c (State.init ch)).2.trace.filter
        (fun x => x.isServiceRegister || x.isCheckRegister || x.isHook) = [] ∧
      (Wait w c (State.init ch)).2.handlers = [] ∧
      (ch.recv ≠ none → (Wait w c (State.init ch)).1 = Result.exit 1)) := by
  constructor
  · intro s
    refine ⟨?_, ?_, ?_⟩
    · rw [newClient_run_error w c s e h]
    · apply effects_of_trace
      rw [newClient_run_error w c s e h]
    · intro client
      rw [newClient_run_error w c s e h]
      simp
  · intro ch
    rcases hr : ch.recv with _ | ⟨v, ch1⟩
    · rw [Wait_run_block w c ch hr]
      simp [State.init]
    · rw [Wait_run_clientError w c ch ch1 v e hr h]
      simp [Event.isServiceRegister, Event.isCheckRegister, Event.isHook]

/-- C3, at an example world whose client creation fails. -/
theorem newClient_error_is_fatal_witness :
    noClientWorld.apiNewClient = Except.error "dial tcp 127.0.0.1:8500: refused" ∧
    (Wait noClientWorld exampleContext (State.init exampleChan)).1 = Result.exit 1 ∧
    (Wait noClientWorld exampleContext (State.init exampleChan)).2.trace.filter
        (fun x => x.isServiceRegister || x.isCheckRegister || x.isHook) = [] :=
  have t := (newClient_error_is_fatal noClientWorld exampleContext
    "dial tcp 127.0.0.1:8500: refused" rfl).2 exampleChan
  ⟨rfl, t.2.2.2 (by decide), t.2.1⟩

/-- C4: if the `ServiceRegister` call answers an error, then `register`, from
any state, adds exactly one `ServiceRegister` call, an error log entry with the
error and a fatal log entry, and ends in a process exit: no `CheckRegister`
call, no interrupt hook, no second `ServiceRegister` call. -/
theorem register_error_is_fatal (w : World) (c : Context) (client : Client) (s : State)
    (e : String) (h : w.serviceRegister (serviceInfo c w.uuidNewV4) = some e) :
    (register w c client s).1 = Result.exit 1 ∧
    Proc.effects (register w c client) s =
      [Event.serviceRegister (serviceInfo c w.uuidNewV4), Event.log Level.error e,
       Event.log Level.fatal msgRegisterError] ∧
    ((Proc.effects (register w c client) s).filter Event.isServiceRegister).length = 1 ∧
    (Proc.effects (register w c client) s).filter Event.isCheckRegister = [] ∧
    (Proc.effects (register w c client) s).filter Event.isHook = [] ∧
    (register w c client s).2.handlers = s.handlers := by
  have ht : Proc.effects (register w c client) s =
      [Event.serviceRegister (serviceInfo c w.uuidNewV4), Event.log Level.error e,
       Event.log Level.fatal msgRegisterError] := by
    apply effects_of_trace
    rw [register_run_error w c client s e h]
  rw [ht, register_run_error w c client s e h]
  exact ⟨rfl, rfl, rfl, rfl, rfl, rfl⟩

/-- C4, at an example world whose service registration fails. -/
theorem register_error_is_fatal_witness :
    noRegisterWorld.serviceRegister (serviceInfo exampleContext noRegisterWorld.uuidNewV4) =
      some "Unexpected response code: 500" ∧
    (register noRegisterWorld exampleContext { handle := 0 } (State.init exampleChan)).1 =
      Result.exit 1 ∧
    Proc.effects (register noRegisterWorld exampleContext { handle := 0 })
        (State.init exampleChan) =
      [Event.serviceRegister (serviceInfo exampleContext noRegisterWorld.uuidNewV4),
       Event.log Level.error "Unexpected response code: 500",
       Event.log Level.fatal msgRegisterError] :=
  have t := register_error_is_fatal noRegisterWorld exampleContext { handle := 0 }
    (State.init exampleChan) "Unexpected response code: 500" rfl
  ⟨rfl, t.1, t.2.1⟩

/-- An example world in which every `CheckRegister` call fails. -/
def noChecksWorld : World :=
  { exampleWorld with checkRegister := fun _ _ => some "Unexpected response code: 400" }

/-- C5: whatever the four `CheckRegister` calls answer (`f`), `registerChecks`
issues all four calls, logs nothing and returns; `registerChecks`, `register`
and `Wait` behave exactly as with the answers of `w`, in particular as when all
four succeed; and when service registration succeeds, `register` returns with
the interrupt hook installed after the four calls. -/
theorem checkRegister_results_ignored (w : World) (c : Context) (client : Client)
    (id : String) (s : State) (f : Nat → AgentCheckRegistration → Option String) :
    (registerChecks { w with checkRegister := f } c client id s).1 = Result.ok () ∧
    Proc.effects (registerChecks { w with checkRegister := f } c client id) s =
      (checks c id).map Event.checkRegister ∧
    (Proc.effects (registerChecks { w with checkRegister := f } c client id) s).filter
      Event.isLog = [] ∧
    registerChecks { w with checkRegister := f } c client id s =
      registerChecks { w with checkRegister := fun _ _ => none } c client id s ∧
    register { w with checkRegister := f } c client s =
      register { w with checkRegister := fun _ _ => none } c client s ∧
    (∀ ch : Chan, Wait { w with checkRegister := f } c (State.init ch) =
      Wait { w with checkRegister := fun _ _ => none } c (State.init ch)) ∧
    (w.serviceRegister (serviceInfo c w.uuidNewV4) = none →
      (register { w with checkRegister := f } c client s).1 = Result.ok () ∧
      Proc.effects (register { w with checkRegister := f } c client) s =
        [Event.serviceRegister (serviceInfo c w.uuidNewV4),
         Event.log Level.info (msgServiceId w.uuidNewV4)] ++
        (checks c w.uuidNewV4).map Event.checkRegister ++
        [Event.signalNotify, Event.goHandler client w.uuidNewV4] ∧
      (register { w with checkRegister := f } c client s).2.handlers =
        s.handlers ++ [(client, w.uuidNewV4)]) := by
  have hreg : ∀ (s : State) (client : Client),
      register { w with checkRegister := f } c client s =
        register { w with checkRegister := fun _ _ => none } c client s := by
    intro s client
    rcases h : w.serviceRegister (serviceInfo c w.uuidNewV4) with _ | e
    · rw [register_run_ok { w with checkRegister := f } c client s h,
        register_run_ok { w with checkRegister := fun _ _ => none } c client s h]
    · rw [register_run_error { w with checkRegister := f } c client s e h,
        register_run_error { w with checkRegister := fun _ _ => none } c client s e h]
  refine ⟨?_, ?_, ?_, ?_, hreg s client, ?_, ?_⟩
  · rw [registerChecks_run]
  · exact registerChecks_effects _ c client id s
  · rw [registerChecks_effects]
    rfl
  · rw [registerChecks_run, registerChecks_run]
  · intro ch
    rcases hr : ch.recv with _ | ⟨v, ch1⟩
    · rw [Wait_run_block _ c ch hr, Wait_run_block _ c ch hr]
    · obtain ⟨r, hc⟩ : ∃ r, w.apiNewClient = r := ⟨_, rfl⟩
      rcases r with e | cl
      · exact (Wait_run_clientError { w with checkRegister := f } c ch ch1 v e hr hc).trans
          (Wait_run_clientError { w with checkRegister := fun _ _ => none } c ch ch1 v e
            hr hc).symm
      · obtain ⟨r, h⟩ : ∃ r, w.serviceRegister (serviceInfo c w.uuidNewV4) = r := ⟨_, rfl⟩
        rcases r with _ | e
        · exact (Wait_run_ok { w with checkRegister := f } c ch ch1 v cl hr hc h).trans
            (Wait_run_ok { w with checkRegister := fun _ _ => none } c ch ch1 v cl hr hc h).symm
        · exact (Wait_run_registerError { w with checkRegister := f } c ch ch1 v cl e
            hr hc h).trans
            (Wait_run_registerError { w with checkRegister := fun _ _ => none } c ch ch1 v cl e
              hr hc h).symm
  · intro h
    have hrun := register_run_ok { w with checkRegister := f } c client s h
    refine ⟨?_, ?_, ?_⟩
    · rw [hrun]
    · apply effects_of_trace
      rw [hrun]
    · rw [hrun]

/-- C5, at an example world in which all four `CheckRegister` calls fail. -/
theorem checkRegister_results_ignored_witness :
    exampleWorld.serviceRegister (serviceInfo exampleContext exampleWorld.uuidNewV4) = none ∧
    (register noChecksWorld exampleContext { handle := 0 } (State.init exampleChan)).1 =
      Result.ok () ∧
    (register noChecksWorld exampleContext { handle := 0 } (State.init exampleChan)).2.handlers =
      [({ handle := 0 }, exampleWorld.uuidNewV4)] :=
  have t := (checkRegister_results_ignored exampleWorld exampleContext { handle := 0 }
    exampleWorld.uuidNewV4 (State.init exampleChan)
    (fun _ _ => some "Unexpected response code: 400")).2.2.2.2.2.2 rfl
  ⟨rfl, t.1, t.2.2⟩

/-- C6: in every run of `Wait` in which the readiness value arrives, client
creation succeeds and service registration succeeds, `Wait` returns and its
trace holds exactly one `ServiceRegister` call, whose registration has the
generated identity as `ID`, the option `name` as `Name`, the option `port` as
`Port` and the option `consul-tags` as `Tags` (the same list). -/
theorem Wait_one_serviceRegister (w : World) (c : Context) (ch ch1 : Chan) (v : Bool)
    (client : Client) (hr : ch.recv = some (v, ch1))
    (hc : w.apiNewClient = Except.ok client)
    (h : w.serviceRegister (serviceInfo c w.uuidNewV4) = none) :
    (Wait w c (State.init ch)).1 = Result.ok () ∧
    (Wait w c (State.init ch)).2.trace.filter Event.isServiceRegister =
      [Event.serviceRegister
        { ID := w.uuidNewV4,
          Name := c.lookupString "name",
          Port := c.lookupInt "port",
          Tags := c.lookupStringSlice "consul-tags" }] := by
  rw [Wait_run_ok w c ch ch1 v client hr hc h]
  exact ⟨rfl, rfl⟩

/-- C6, at the example configuration `name = svc`, `port = 8080`,
`consul-tags = [v1]`. -/
theorem Wait_one_serviceRegister_witness :
    exampleChan.recv = some (true, { buf := [], closed := false }) ∧
    exampleWorld.apiNewClient = Except.ok { handle := 0 } ∧
    exampleWorld.serviceRegister (serviceInfo exampleContext exampleWorld.uuidNewV4) = none ∧
    (Wait exampleWorld exampleContext (State.init exampleChan)).2.trace.filter
        Event.isServiceRegister =
      [Event.serviceRegister
        { ID := "6ba7b810-9dad-41d1-80b4-00c04fd430c8",
          Name := "svc",
          Port := 8080,
          Tags := ["v1"] }] :=
  ⟨rfl, rfl, rfl,
    (Wait_one_serviceRegister exampleWorld exampleContext exampleChan
      { buf := [], closed := false } true { handle := 0 } rfl rfl rfl).2.trans (by decide)⟩

/-- An example world in which deregistration fails. -/
def noDeregisterWorld : World :=
  { exampleWorld with serviceDeregister := fun _ => some "Unexpected response code: 500" }

/-- In a run of `Wait` in which the readiness value arrives and client creation
and service registration succeed, an interrupt that arrives before the
subscription (`signal.Notify` is the tenth effect of the run) ends the process
by the default action of the signal: the effects stop there and hold no
`ServiceDeregister` call, although from the fourth effect on they hold the
`ServiceRegister` call. -/
theorem interruptAt_before_hook (w : World) (c : Context) (ch ch1 : Chan) (v : Bool)
    (client : Client) (k j : Nat) (later : List Signal)
    (hr : ch.recv = some (v, ch1))
    (hc : w.apiNewClient = Except.ok client)
    (h : w.serviceRegister (serviceInfo c w.uuidNewV4) = none)
    (hk : k ≤ 9) :
    interruptAt w c ch k j later =
      (Ending.killed Signal.interrupt, (Wait w c (State.init ch)).2.trace.take k) ∧
    (interruptAt w c ch k j later).2.filter Event.isServiceDeregister = [] ∧
    (4 ≤ k →
      Event.serviceRegister (serviceInfo c w.uuidNewV4) ∈ (interruptAt w c ch k j later).2) := by
  have hrun := Wait_run_ok w c ch ch1 v client hr hc h
  have hi : interruptAt w c ch k j later =
      (Ending.killed Signal.interrupt, (Wait w c (State.init ch)).2.trace.take k) := by
    simp only [interruptAt, hrun]
    interval_cases k <;> rfl
  rw [hi, hrun]
  refine ⟨rfl, ?_, ?_⟩
  · interval_cases k <;> rfl
  · intro h4
    interval_cases k <;> simp [checks]

/-- In a run of `Wait` in which the readiness value arrives and client creation
and service registration succeed, an interrupt that arrives once the
subscription is in place is handled by the handler goroutine: exactly one
`ServiceDeregister` call, for the generated identity, and the process exits
with status 1, whatever the deregistration answers, however far the main
goroutine gets meanwhile and whatever signals follow. -/
theorem interruptAt_after_hook (w : World) (c : Context) (ch ch1 : Chan) (v : Bool)
    (client : Client) (k j : Nat) (later : List Signal)
    (hr : ch.recv = some (v, ch1))
    (hc : w.apiNewClient = Except.ok client)
    (h : w.serviceRegister (serviceInfo c w.uuidNewV4) = none)
    (hk : 10 ≤ k) :
    (interruptAt w c ch k j later).1 = Ending.exit 1 ∧
    (interruptAt w c ch k j later).2.filter Event.isServiceDeregister =
      [Event.serviceDeregister w.uuidNewV4] := by
  have hrun := Wait_run_ok w c ch ch1 v client hr hc h
  obtain ⟨m, rfl⟩ := Nat.exists_eq_add_of_le hk
  have hsub : (((Wait w c (State.init ch)).2.trace.take (10 + m)).any
      Event.isSignalNotify) = true := by
    rw [List.take_add, List.any_append, hrun]
    rfl
  have hfirst : firstHandler (Wait w c (State.init ch)).2.trace =
      some (11, client, w.uuidNewV4) := by
    rw [hrun]
    rfl
  have hnone : ∀ n : Nat, ((Wait w c (State.init ch)).2.trace.take n).filter
      Event.isServiceDeregister = [] := by
    intro n
    rw [List.filter_eq_nil_iff]
    intro e he
    have hmem := List.mem_of_mem_take he
    rw [hrun] at hmem
    simp only [checks, List.map_cons, List.map_nil, List.cons_append, List.nil_append,
      List.mem_cons, List.not_mem_nil, or_false] at hmem
    rcases hmem with rfl | rfl | rfl | rfl | rfl | rfl | rfl | rfl | rfl | rfl | rfl | rfl <;>
      simp [Event.isServiceDeregister]
  have hok : (Wait w c (State.init ch)).1 = Result.ok () := by rw [hrun]
  have hi : interruptAt w c ch (10 + m) j later =
      (Ending.ofResult (handler w client w.uuidNewV4 (Signal.interrupt :: later)
          { (Wait w c (State.init ch)).2 with
            trace := (Wait w c (State.init ch)).2.trace.take (max (10 + m + j) 11) }).1,
       (handler w client w.uuidNewV4 (Signal.interrupt :: later)
          { (Wait w c (State.init ch)).2 with
            trace := (Wait w c (State.init ch)).2.trace.take (max (10 + m + j) 11) }).2.trace) := by
    simp only [interruptAt, hok, hsub, hfirst, if_true]
  rw [hi]
  obtain ⟨r, hd⟩ : ∃ r, w.serviceDeregister w.uuidNewV4 = r := ⟨_, rfl⟩
  rcases r with _ | e
  · rw [handler_run_ok w client w.uuidNewV4 Signal.interrupt later _ hd]
    refine ⟨rfl, ?_⟩
    simp only [List.filter_append, hnone]
    rfl
  · rw [handler_run_error w client w.uuidNewV4 Signal.interrupt later _ e hd]
    refine ⟨rfl, ?_⟩
    simp only [List.filter_append, hnone]
    rfl

/-- C7 fails on the code.  In the example world, where every registry call
succeeds, an interrupt that arrives when the main goroutine has performed six
effects (the receive, a log entry, the client creation, the successful
`ServiceRegister` call, the service id log entry and the first `CheckRegister`
call) finds no subscription: the process is ended by the default action of the
signal, the service is registered and no `ServiceDeregister` call is issued.
The same interrupt arriving after the tenth effect (`signal.Notify`) is
answered by exactly one `ServiceDeregister` call for the identity and exit
status 1, also when the deregistration fails. -/
theorem interrupt_before_hook_not_deregistered :
    interruptAt exampleWorld exampleContext exampleChan 6 0 [] =
      (Ending.killed Signal.interrupt,
       [Event.recv true,
        Event.log Level.info msgReplayed,
        Event.newClient,
        Event.serviceRegister
          { ID := "6ba7b810-9dad-41d1-80b4-00c04fd430c8", Name := "svc", Port := 8080,
            Tags := ["v1"] },
        Event.log Level.info (msgServiceId "6ba7b810-9dad-41d1-80b4-00c04fd430c8"),
        Event.checkRegister
          { Name := "Service Router", Notes := "",
            ServiceID := "6ba7b810-9dad-41d1-80b4-00c04fd430c8",
            Check := { HTTP := "http://localhost/sd/health", Interval := "10s",
                       Timeout := "5s" } }]) ∧
    (interruptAt exampleWorld exampleContext exampleChan 6 0 []).2.filter
      Event.isServiceDeregister = [] ∧
    (interruptAt exampleWorld exampleContext exampleChan 6 0 []).2.filter
      Event.isServiceRegister ≠ [] ∧
    (interruptAt exampleWorld exampleContext exampleChan 10 0 []).1 = Ending.exit 1 ∧
    (interruptAt exampleWorld exampleContext exampleChan 10 0 []).2.filter
      Event.isServiceDeregister =
      [Event.serviceDeregister "6ba7b810-9dad-41d1-80b4-00c04fd430c8"] ∧
    (interruptAt noDeregisterWorld exampleContext exampleChan 12 0 [Signal.interrupt]).1 =
      Ending.exit 1 ∧
    (interruptAt noDeregisterWorld exampleContext exampleChan 12 0 [Signal.interrupt]).2.filter
      Event.isServiceDeregister =
      [Event.serviceDeregister "6ba7b810-9dad-41d1-80b4-00c04fd430c8"] := by
  refine ⟨?_, ?_, ?_, ?_, ?_, ?_, ?_⟩ <;> decide

/-- C8: for every configuration and identity `id`, each check built by
`registerChecks` has `ServiceID = id`, the option `consul-check_interval` as
`Interval` and the option `consul-check_timeout` as `Timeout`, and these are the
checks `registerChecks` submits.  In every run of `Wait`, every `CheckRegister`
call carries the generated identity, which is also the `ID` of every
`ServiceRegister` call of the run, and a `ServiceRegister` call for it is in
the trace. -/
theorem checks_share_identity (w : World) (c : Context) (id : String) :
    (∀ x ∈ checks c id,
      x.ServiceID = id ∧ x.Check.Interval = c.lookupString "consul-check_interval" ∧
        x.Check.Timeout = c.lookupString "consul-check_timeout") ∧
    (∀ (client : Client) (s : State) (x : AgentCheckRegistration),
      Event.checkRegister x ∈ Proc.effects (registerChecks w c client id) s →
      x.ServiceID = id ∧ x.Check.Interval = c.lookupString "consul-check_interval" ∧
        x.Check.Timeout = c.lookupString "consul-check_timeout") ∧
    (∀ (ch : Chan) (x : AgentCheckRegistration),
      Event.checkRegister x ∈ (Wait w c (State.init ch)).2.trace →
      (x.ServiceID = w.uuidNewV4 ∧
        x.Check.Interval = c.lookupString "consul-check_interval" ∧
        x.Check.Timeout = c.lookupString "consul-check_timeout") ∧
      Event.serviceRegister (serviceInfo c w.uuidNewV4) ∈ (Wait w c (State.init ch)).2.trace ∧
      (serviceInfo c w.uuidNewV4).ID = x.ServiceID ∧
      ∀ info, Event.serviceRegister info ∈ (Wait w c (State.init ch)).2.trace →
        info.ID = x.ServiceID) := by
  refine ⟨fun x hx => checks_fields c id x hx, ?_, ?_⟩
  · intro client s x hx
    rw [registerChecks_effects] at hx
    rcases List.mem_map.1 hx with ⟨y, hy, hyx⟩
    cases hyx
    exact checks_fields c id _ hy
  · intro ch x hx
    rcases hr : ch.recv with _ | ⟨v, ch1⟩
    · rw [Wait_run_block w c ch hr] at hx
      simp [State.init] at hx
    · rcases hc : w.apiNewClient with e | client
      · rw [Wait_run_clientError w c ch ch1 v e hr hc] at hx
        simp at hx
      · rcases h : w.serviceRegister (serviceInfo c w.uuidNewV4) with _ | e
        · rw [Wait_run_ok w c ch ch1 v client hr hc h] at hx ⊢
          have hmem := mem_checks_of_mem_map c w.uuidNewV4 x _ _ hx
            (by intro e he; simp only [List.mem_cons, List.not_mem_nil, or_false] at he
                rcases he with rfl | rfl | rfl | rfl | rfl <;> rfl)
            (by intro e he; simp only [List.mem_cons, List.not_mem_nil, or_false] at he
                rcases he with rfl | rfl | rfl <;> rfl)
          have hf := checks_fields c w.uuidNewV4 x hmem
          refine ⟨hf, by simp, hf.1.symm, ?_⟩
          intro info hi
          simp only [checks, List.map_cons, List.map_nil, List.cons_append, List.nil_append,
            List.mem_cons, List.not_mem_nil, or_false, reduceCtorEq, false_or, or_false,
            Event.serviceRegister.injEq] at hi
          rw [hi, hf.1]
          rfl
        · rw [Wait_run_registerError w c ch ch1 v client e hr hc h] at hx
          simp at hx

/-- C8, at the example configuration: the four checks submitted in the example
run carry the generated identity, the interval `10s` and the timeout `5s`. -/
theorem checks_share_identity_witness :
    (checks exampleContext exampleWorld.uuidNewV4).map
        (fun x => (x.ServiceID, x.Check.Interval, x.Check.Timeout)) =
      List.replicate 4 ("6ba7b810-9dad-41d1-80b4-00c04fd430c8", "10s", "5s") ∧
    ∀ x ∈ checks exampleContext exampleWorld.uuidNewV4,
      x.ServiceID = exampleWorld.uuidNewV4 ∧
        x.Check.Interval = exampleContext.lookupString "consul-check_interval" ∧
        x.Check.Timeout = exampleContext.lookupString "consul-check_timeout" :=
  ⟨by decide, (checks_share_identity exampleWorld exampleContext exampleWorld.uuidNewV4).1⟩

/-- C9, as stated, fails: in the example world, where every call succeeds, the
steps `newClient`, `registerChecks` and `deregister` each run without emitting
any log entry. -/
theorem steps_without_log_entry :
    (¬ ∃ e ∈ Proc.effects (newClient exampleWorld exampleContext) (State.init exampleChan),
      e.isLog = true) ∧
    (¬ ∃ e ∈ Proc.effects
        (registerChecks exampleWorld exampleContext { handle := 0 } exampleWorld.uuidNewV4)
        (State.init exampleChan),
      e.isLog = true) ∧
    (¬ ∃ e ∈ Proc.effects (deregister exampleWorld { handle := 0 } exampleWorld.uuidNewV4)
        (State.init exampleChan),
      e.isLog = true) := by
  decide

/-- C9, amended: `newClient` logs an error entry and a fatal entry when client
creation fails and nothing when it succeeds; `register` logs an error entry and
a fatal entry when `ServiceRegister` fails and one info entry, with the service
id, when it succeeds; `registerChecks`, when its `CheckRegister` calls succeed,
and `deregister` emit no log entry; in every run of `Wait` in which the receive on
the readiness channel completes, the second effect, right after the receive and
right before the client creation, is Wait's info entry; in a run of `Wait` in
which everything succeeds the log entries are that entry, the service id entry
and Wait's final entry, which is the last effect of the run; in a run that
fails, the log entries are Wait's first entry, the error entry and the fatal
entry. -/
theorem steps_log_entries (w : World) (c : Context) (client : Client) (id : String)
    (s : State) :
    (∀ e, w.apiNewClient = Except.error e →
      (Proc.effects (newClient w c) s).filter Event.isLog =
        [Event.log Level.error e, Event.log Level.fatal msgClientError]) ∧
    (∀ cl, w.apiNewClient = Except.ok cl →
      (Proc.effects (newClient w c) s).filter Event.isLog = []) ∧
    (∀ e, w.serviceRegister (serviceInfo c w.uuidNewV4) = some e →
      (Proc.effects (register w c client) s).filter Event.isLog =
        [Event.log Level.error e, Event.log Level.fatal msgRegisterError]) ∧
    (w.serviceRegister (serviceInfo c w.uuidNewV4) = none →
      (Proc.effects (register w c client) s).filter Event.isLog =
        [Event.log Level.info (msgServiceId w.uuidNewV4)]) ∧
    ((∀ n x, w.checkRegister n x = none) →
      (Proc.effects (registerChecks w c client id) s).filter Event.isLog = []) ∧
    (Proc.effects (deregister w client id) s).filter Event.isLog = [] ∧
    (∀ (ch ch1 : Chan) (v : Bool) (cl : Client), ch.recv = some (v, ch1) →
      w.apiNewClient = Except.ok cl →
      w.serviceRegister (serviceInfo c w.uuidNewV4) = none →
      (Wait w c (State.init ch)).2.trace.filter Event.isLog =
        [Event.log Level.info msgReplayed,
         Event.log Level.info (msgServiceId w.uuidNewV4),
         Event.log Level.info msgRegistered]) ∧
    (∀ (ch ch1 : Chan) (v : Bool), ch.recv = some (v, ch1) →
      ∃ tl : List Event, (Wait w c (State.init ch)).2.trace =
        Event.recv v :: Event.log Level.info msgReplayed :: Event.newClient :: tl) ∧
    (∀ (ch ch1 : Chan) (v : Bool) (cl : Client), ch.recv = some (v, ch1) →
      w.apiNewClient = Except.ok cl →
      w.serviceRegister (serviceInfo c w.uuidNewV4) = none →
      (Wait w c (State.init ch)).2.trace.getLast? =
        some (Event.log Level.info msgRegistered)) ∧
    (∀ (ch ch1 : Chan) (v : Bool) (e : String), ch.recv = some (v, ch1) →
      w.apiNewClient = Except.error e →
      (Wait w c (State.init ch)).2.trace.filter Event.isLog =
        [Event.log Level.info msgReplayed, Event.log Level.error e,
         Event.log Level.fatal msgClientError]) ∧
    (∀ (ch ch1 : Chan) (v : Bool) (cl : Client) (e : String), ch.recv = some (v, ch1) →
      w.apiNewClient = Except.ok cl →
      w.serviceRegister (serviceInfo c w.uuidNewV4) = some e →
      (Wait w c (State.init ch)).2.trace.filter Event.isLog =
        [Event.log Level.info msgReplayed, Event.log Level.error e,
         Event.log Level.fatal msgRegisterError]) := by
  refine ⟨?_, ?_, ?_, ?_, ?_, ?_, ?_, ?_, ?_, ?_, ?_⟩
  · intro e h
    rw [effects_of_trace _ s _ (by rw [newClient_run_error w c s e h])]
    rfl
  · intro cl h
    rw [effects_of_trace _ s _ (by rw [newClient_run_ok w c s cl h])]
    rfl
  · intro e h
    rw [effects_of_trace _ s _ (by rw [register_run_error w c client s e h])]
    rfl
  · intro h
    rw [effects_of_trace _ s _ (by rw [register_run_ok w c client s h])]
    rfl
  · intro _
    rw [registerChecks_effects]
    rfl
  · rw [effects_of_trace _ s _ (by rw [deregister_run])]
    rfl
  · intro ch ch1 v cl hr hc h
    rw [Wait_run_ok w c ch ch1 v cl hr hc h]
    rfl
  · intro ch ch1 v hr
    obtain ⟨r, hc⟩ : ∃ r, w.apiNewClient = r := ⟨_, rfl⟩
    rcases r with e | cl
    · rw [Wait_run_clientError w c ch ch1 v e hr hc]
      exact ⟨_, rfl⟩
    · obtain ⟨r, h⟩ : ∃ r, w.serviceRegister (serviceInfo c w.uuidNewV4) = r := ⟨_, rfl⟩
      rcases r with _ | e
      · rw [Wait_run_ok w c ch ch1 v cl hr hc h]
        exact ⟨_, rfl⟩
      · rw [Wait_run_registerError w c ch ch1 v cl e hr hc h]
        exact ⟨_, rfl⟩
  · intro ch ch1 v cl hr hc h
    rw [Wait_run_ok w c ch ch1 v cl hr hc h]
    rfl
  · intro ch ch1 v e hr hc
    rw [Wait_run_clientError w c ch ch1 v e hr hc]
    rfl
  · intro ch ch1 v cl e hr hc h
    rw [Wait_run_registerError w c ch ch1 v cl e hr hc h]
    rfl

/-- C9 amended, at the example world and at the world whose client creation
fails. -/
theorem steps_log_entries_witness :
    noClientWorld.apiNewClient = Except.error "dial tcp 127.0.0.1:8500: refused" ∧
    (Proc.effects (newClient noClientWorld exampleContext) (State.init exampleChan)).filter
        Event.isLog =
      [Event.log Level.error "dial tcp 127.0.0.1:8500: refused",
       Event.log Level.fatal msgClientError] ∧
    (∀ n x, exampleWorld.checkRegister n x = none) ∧
    (Proc.effects
        (registerChecks exampleWorld exampleContext { handle := 0 } exampleWorld.uuidNewV4)
        (State.init exampleChan)).filter Event.isLog = [] ∧
    exampleChan.recv = some (true, { buf := [], closed := false }) ∧
    (∃ tl : List Event, (Wait noClientWorld exampleContext (State.init exampleChan)).2.trace =
      Event.recv true :: Event.log Level.info msgReplayed :: Event.newClient :: tl) ∧
    (Wait noClientWorld exampleContext (State.init exampleChan)).2.trace.filter Event.isLog =
      [Event.log Level.info msgReplayed,
       Event.log Level.error "dial tcp 127.0.0.1:8500: refused",
       Event.log Level.fatal msgClientError] :=
  ⟨rfl,
    (steps_log_entries noClientWorld exampleContext { handle := 0 } noClientWorld.uuidNewV4
      (State.init exampleChan)).1 _ rfl,
    fun _ _ => rfl,
    (steps_log_entries exampleWorld exampleContext { handle := 0 } exampleWorld.uuidNewV4
      (State.init exampleChan)).2.2.2.2.1 (fun _ _ => rfl),
    rfl,
    (steps_log_entries noClientWorld exampleContext { handle := 0 } noClientWorld.uuidNewV4
      (State.init exampleChan)).2.2.2.2.2.2.2.1 exampleChan _ true rfl,
    (steps_log_entries noClientWorld exampleContext { handle := 0 } noClientWorld.uuidNewV4
      (State.init exampleChan)).2.2.2.2.2.2.2.2.2.1 exampleChan _ true _ rfl rfl⟩

/-- C10: for every configuration, on a readiness channel on which no value ever
arrives `Wait` blocks without any effect (no log entry, no registry call, no
hook); on a channel with a value pending the first effect of `Wait` is the
receive of that value, exactly that one value is taken from the channel, and no
other receive follows; and on every channel the trace of `Wait` is empty or
starts with the completed receive, which is its only receive. -/
theorem Wait_blocks_until_ready (w : World) (c : Context) :
    Wait w c (State.init { buf := [], closed := false }) =
      (Result.block, State.init { buf := [], closed := false }) ∧
    (Wait w c (State.init { buf := [], closed := false })).2.trace = [] ∧
    (∀ (v : Bool) (rest : List Bool) (closed : Bool),
      (Wait w c (State.init { buf := v :: rest, closed := closed })).2.deployed =
        { buf := rest, closed := closed } ∧
      (Wait w c (State.init { buf := v :: rest, closed := closed })).2.trace.head? =
        some (Event.recv v) ∧
      (Wait w c (State.init { buf := v :: rest, closed := closed })).2.trace.filter
        Event.isRecv = [Event.recv v]) ∧
    (∀ ch : Chan, (Wait w c (State.init ch)).2.trace = [] ∨
      ∃ (v : Bool) (tl : List Event),
        (Wait w c (State.init ch)).2.trace = Event.recv v :: tl ∧
        tl.filter Event.isRecv = []) := by
  have hb := Wait_run_block w c { buf := [], closed := false } rfl
  refine ⟨hb, ?_, ?_, ?_⟩
  · rw [hb]
    rfl
  · intro v rest closed
    obtain ⟨tl, ht, hn, hd⟩ := Wait_trace_after_recv w c { buf := v :: rest, closed := closed }
      { buf := rest, closed := closed } v rfl
    refine ⟨hd, ?_, ?_⟩
    · rw [ht]
      rfl
    · rw [ht]
      simp [List.filter_cons, Event.isRecv, hn]
  · intro ch
    rcases hr : ch.recv with _ | ⟨v, ch1⟩
    · left
      rw [Wait_run_block w c ch hr]
      rfl
    · right
      obtain ⟨tl, ht, hn, _⟩ := Wait_trace_after_recv w c ch ch1 v hr
      exact ⟨v, tl, ht, hn⟩

end KitSvc.sd
